import Mathlib

/-!
Shallow embedding of the tme-staff staff-onboarding application
(`src/lib/*.ts`, `src/app/api/*/route.ts`, `src/app/onboard/[id]/page.tsx`,
supabase helper module) and proofs about the claims of its specification.

Text is modelled as `List Char` for the free-text model replies and user
inputs, and as `String` for fixed message constants.  JavaScript numbers are
modelled as exact rationals (`ℚ`); `Math.round` is round-half-towards-plus-
infinity, exactly JavaScript's semantics on the values involved.
-/

namespace TmeStaff

/-! ## Characters and JS regex character classes -/

/-- The character `\x7b` (left curly brace). -/
def lbrace : Char := Char.ofNat 123

/-- The character `\x7d` (right curly brace). -/
def rbrace : Char := Char.ofNat 125

/-- JS regex `\d` (no `u` flag): exactly the ASCII digits `[0-9]`. -/
def jsDigitChar (c : Char) : Bool := decide ('0' ≤ c) && decide (c ≤ '9')

/-- JS regex `\s`: the ECMAScript WhiteSpace and LineTerminator characters. -/
def jsWhitespaceChar (c : Char) : Bool :=
  c = ' ' || c = '\t' || c = '\n' || c = '\r' ||
  c = Char.ofNat 11 || c = Char.ofNat 12 ||           -- \v \f
  c = Char.ofNat 0x00a0 || c = Char.ofNat 0x1680 ||
  (Char.ofNat 0x2000 ≤ c && c ≤ Char.ofNat 0x200a) ||
  c = Char.ofNat 0x2028 || c = Char.ofNat 0x2029 ||
  c = Char.ofNat 0x202f || c = Char.ofNat 0x205f ||
  c = Char.ofNat 0x3000 || c = Char.ofNat 0xfeff

/-- Model of `String.prototype.toUpperCase` restricted to the ASCII letters
(the only case mapping the validation inputs exercise): lowercase `a`-`z`
maps to `A`-`Z`, every other character is unchanged. -/
def jsUpperChar (c : Char) : Char :=
  if 'a' ≤ c ∧ c ≤ 'z' then Char.ofNat (c.toNat - 32) else c

/-- `p` is a prefix of `s` (model of JS `String.prototype.startsWith`). -/
def listStartsWith : List Char → List Char → Bool
  | [], _ => true
  | _ :: _, [] => false
  | p :: ps, c :: cs => p = c && listStartsWith ps cs

/-- `pat` occurs as a contiguous substring of `s`
(model of JS `String.prototype.includes`). -/
def containsSub (pat : List Char) : List Char → Bool
  | [] => listStartsWith pat []
  | c :: rest => listStartsWith pat (c :: rest) || containsSub pat rest

/-! ## The `/\x7b[\s\S]*\x7d/` extraction used by all three validators

`photo-validation.ts` line 119, `passport-extraction.ts` line 159 and
`passport-page-validation.ts` line 108 all run
`textBlock.text.match(/\x7b[\s\S]*\x7d/)` and feed `jsonMatch[0]` to
`JSON.parse`.  The star is greedy, so at a given start position the regex
matches from a left brace up to the *last* right brace of the remaining
text.  The engine tries start positions left to right. -/

/-- The prefix of `l` that ends at the last `rbrace` of `l`
(what the greedy `[\s\S]*\x7d` consumes after the opening brace),
or `none` when `l` has no `rbrace`. -/
def upToLastClose : List Char → Option (List Char)
  | [] => none
  | c :: rest =>
    match upToLastClose rest with
    | some seg => some (c :: seg)
    | none => if c = rbrace then some [c] else none

/-- Model of `s.match(/\x7b[\s\S]*\x7d/)[0]`: scan start positions left to
right; at the first `lbrace`, the greedy star runs to the end and backtracks
to the last `rbrace`. -/
def jsMatchFirstBlock : List Char → Option (List Char)
  | [] => none
  | c :: rest =>
    if c = lbrace then
      match upToLastClose rest with
      | some seg => some (c :: seg)
      | none => jsMatchFirstBlock rest
    else jsMatchFirstBlock rest

/-- The spec's description of the extraction (claim C1): the block starting
at the first left brace and ending at the *matching* right brace, tracked
with a nesting depth counter.  Used only to compare with the source-derived
`jsMatchFirstBlock`. -/
def matchingSpan : Nat → List Char → Option (List Char)
  | _, [] => none
  | d, c :: rest =>
    if c = rbrace then
      if d = 0 then some [c] else (matchingSpan (d - 1) rest).map (c :: ·)
    else if c = lbrace then (matchingSpan (d + 1) rest).map (c :: ·)
    else (matchingSpan d rest).map (c :: ·)

/-- The spec's "first `\x7b...\x7d` block" (see `matchingSpan`). -/
def specFirstBlock : List Char → Option (List Char)
  | [] => none
  | c :: rest =>
    if c = lbrace then (matchingSpan 0 rest).map (c :: ·)
    else specFirstBlock rest

/-! ### Characterisation of `jsMatchFirstBlock` -/

theorem upToLastClose_eq_none (l : List Char) :
    upToLastClose l = none ↔ rbrace ∉ l := by
  induction l with
  | nil => simp [upToLastClose]
  | cons c rest ih =>
    simp only [upToLastClose]
    cases h : upToLastClose rest with
    | some seg =>
      simp only [List.mem_cons]
      constructor
      · intro hc; cases hc
      · intro hc
        have : rbrace ∉ rest := fun hm => hc (Or.inr hm)
        rw [← ih] at this
        rw [this] at h; cases h
    | none =>
      have hrest : rbrace ∉ rest := ih.mp h
      by_cases hc : c = rbrace
      · subst hc; simp
      · simp [hc, hrest, Ne.symm hc]

theorem upToLastClose_eq_some (l seg : List Char)
    (h : upToLastClose l = some seg) :
    ∃ init suf, l = seg ++ suf ∧ rbrace ∉ suf ∧ seg = init ++ [rbrace] := by
  induction l generalizing seg with
  | nil => simp [upToLastClose] at h
  | cons c rest ih =>
    simp only [upToLastClose] at h
    cases h' : upToLastClose rest with
    | some seg' =>
      rw [h'] at h
      obtain ⟨init, suf, h1, h2, h3⟩ := ih seg' h'
      refine ⟨c :: init, suf, ?_, h2, ?_⟩
      · simpa [h1] using (Option.some.injEq _ _ ▸ h).symm ▸ rfl
      · have : seg = c :: seg' := by
          injection h with h; exact h.symm
        simp [this, h3]
    | none =>
      rw [h'] at h
      by_cases hc : c = rbrace
      · subst hc
        simp only [if_pos rfl] at h
        injection h with h
        refine ⟨[], rest, ?_, (upToLastClose_eq_none rest).mp h', by simp [← h]⟩
        simp [← h]
      · simp [hc] at h

theorem upToLastClose_append (init suf : List Char) (hsuf : rbrace ∉ suf) :
    upToLastClose (init ++ rbrace :: suf) = some (init ++ [rbrace]) := by
  induction init with
  | nil =>
    simp only [List.nil_append, upToLastClose]
    have : upToLastClose suf = none := (upToLastClose_eq_none suf).mpr hsuf
    simp [this]
  | cons c rest ih =>
    simp only [List.cons_append, upToLastClose, List.append_eq, ih]

theorem jsMatchFirstBlock_of_no_close (l : List Char) (h : rbrace ∉ l) :
    jsMatchFirstBlock l = none := by
  induction l with
  | nil => rfl
  | cons c rest ih =>
    have hrest : rbrace ∉ rest := fun hm => h (List.mem_cons_of_mem _ hm)
    have ihr := ih hrest
    simp only [jsMatchFirstBlock]
    by_cases hc : c = lbrace
    · simp only [if_pos hc]
      rw [(upToLastClose_eq_none rest).mpr hrest]
      exact ihr
    · simp only [if_neg hc]; exact ihr

theorem jsMatchFirstBlock_characterisation (s r : List Char) :
    jsMatchFirstBlock s = some r ↔
      ∃ pre mid suf, s = pre ++ (lbrace :: (mid ++ rbrace :: suf)) ∧
        lbrace ∉ pre ∧ rbrace ∉ suf ∧ r = lbrace :: (mid ++ [rbrace]) := by
  constructor
  · intro h
    induction s generalizing r with
    | nil => simp [jsMatchFirstBlock] at h
    | cons c rest ih =>
      simp only [jsMatchFirstBlock] at h
      by_cases hc : c = lbrace
      · rw [if_pos hc] at h
        cases h' : upToLastClose rest with
        | some seg =>
          rw [h'] at h
          obtain ⟨init, suf, h1, h2, h3⟩ := upToLastClose_eq_some rest seg h'
          refine ⟨[], init, suf, ?_, by simp, h2, ?_⟩
          · simp [hc, h1, h3]
          · injection h with h
            simp [← h, hc, h3]
        | none =>
          rw [h'] at h
          have hrest : rbrace ∉ rest := (upToLastClose_eq_none rest).mp h'
          rw [jsMatchFirstBlock_of_no_close rest hrest] at h
          cases h
      · rw [if_neg hc] at h
        obtain ⟨pre, mid, suf, h1, h2, h3, h4⟩ := ih r h
        exact ⟨c :: pre, mid, suf, by simp [h1], by simp [h2, Ne.symm hc], h3, h4⟩
  · rintro ⟨pre, mid, suf, h1, h2, h3, h4⟩
    subst h1
    induction pre with
    | nil =>
      simp only [List.nil_append, jsMatchFirstBlock, if_pos rfl]
      rw [upToLastClose_append mid suf h3]
      simp [h4]
    | cons c pre' ih =>
      have hc : c ≠ lbrace := fun hcl => h2 (hcl ▸ List.mem_cons_self _ _)
      have hpre' : lbrace ∉ pre' := fun hm => h2 (List.mem_cons_of_mem _ hm)
      simp only [List.cons_append, jsMatchFirstBlock, if_neg hc]
      exact ih hpre'

/-! ## JSON values and JavaScript coercions

`JSON.parse` is a platform builtin, not repository code; it is kept abstract
as a parameter `parse : List Char → Option JsonValue` of the validator
models (`none` models a `JSON.parse` throw on the given text). -/

/-- A parsed JSON value (the shape `JSON.parse` can produce). -/
inductive JsonValue where
  | null
  | bool (b : Bool)
  | num (q : ℚ)
  | str (s : String)
  | arr (elems : List JsonValue)
  | obj (fields : List (String × JsonValue))

/-- First binding of `key` in a field list. -/
def lookupField : List (String × JsonValue) → String → Option JsonValue
  | [], _ => none
  | (k, v) :: rest, key => if k = key then some v else lookupField rest key

/-- JS property access `v[key]`: `undefined` (here `none`) on non-objects.
(A JS property access on `null` throws instead; in every validator that
throw lands in the same `catch` as the missing-field check, so the models
coincide on the returned value.) -/
def jsonLookup : JsonValue → String → Option JsonValue
  | .obj fields, key => lookupField fields key
  | _, _ => none

/-- JS truthiness of a JSON value (`NaN` does not arise here). -/
def jsTruthy : JsonValue → Bool
  | .null => false
  | .bool b => b
  | .num q => decide (q ≠ 0)
  | .str s => decide (s ≠ "")
  | .arr _ => true
  | .obj _ => true

/-- JS `x || d` where `x` may be `undefined` (`none`). -/
def jsOr (x : Option JsonValue) (d : JsonValue) : JsonValue :=
  match x with
  | some v => if jsTruthy v then v else d
  | none => d

/-! ## `anthropic.ts`: `withTimeout` -/

/-- How a promise settles: resolution or rejection at time `t` (ms). -/
inductive PromiseOutcome (α : Type) where
  | resolves (t : Nat) (v : α)
  | rejects (t : Nat) (msg : String)

/-- Result of `Promise.race` in `withTimeout`. -/
inductive RaceResult (α : Type) where
  | value (v : α)
  | error (msg : String)

/-- When the given promise settles. -/
def settleTime {α : Type} : PromiseOutcome α → Nat
  | .resolves t _ => t
  | .rejects t _ => t

/-- The rejection message of the timer in `withTimeout`
(`anthropic.ts` line 37). -/
def timeoutMessage (timeoutMs : Nat) : String :=
  "Request timeout after " ++ toString timeoutMs ++ "ms"

/-- `withTimeout` (`anthropic.ts` lines 31-42): race the promise against a
timer that rejects with `timeoutMessage` after `timeoutMs` ms.  The promise
wins when it settles no later than the timer fires. -/
def withTimeout {α : Type} (promise : PromiseOutcome α) (timeoutMs : Nat) :
    RaceResult α :=
  match promise with
  | .resolves t v =>
    if t ≤ timeoutMs then .value v else .error (timeoutMessage timeoutMs)
  | .rejects t msg =>
    if t ≤ timeoutMs then .error msg else .error (timeoutMessage timeoutMs)

/-- Timeout passed at the `withTimeout` call site of `validatePhoto`
(`photo-validation.ts` line 109). -/
def photoValidationTimeoutMs : Nat := 30000

/-- Timeout passed at the `withTimeout` call site of `validatePassportPage`
(`passport-page-validation.ts` line 98). -/
def passportPageTimeoutMs : Nat := 30000

/-- Timeout passed at the `withTimeout` call site of `extractPassport`
(`passport-extraction.ts` line 149). -/
def passportExtractionTimeoutMs : Nat := 45000

/-! ## Model responses -/

/-- A block of the model response's `content` array. -/
inductive ContentBlock where
  | text (t : List Char)
  | other

/-- `response.content.find(block => block.type === 'text')`. -/
def findTextBlock : List ContentBlock → Option (List Char)
  | [] => none
  | .text t :: _ => some t
  | .other :: rest => findTextBlock rest

/-! ## `photo-validation.ts`: `validatePhoto` -/

/-- Return shape of `validatePhoto`.  The interface declares
`errors`/`suggestions` as string arrays and `confidence` as a number, but
the unchecked `as` cast lets any JSON value through, so the non-`valid`
fields are arbitrary JSON values here. -/
structure PhotoValidationResult where
  valid : Bool
  errors : JsonValue
  suggestions : JsonValue
  confidence : JsonValue

/-- The canned response of `validatePhoto`'s `catch` block
(`photo-validation.ts` lines 141-146). -/
def cannedPhotoError : PhotoValidationResult :=
  { valid := false
    errors := .arr [.str "Unable to validate photo. Please try again."]
    suggestions := .arr [.str "Ensure the image is clear and try uploading again."]
    confidence := .num 0 }

/-- `validatePhoto` (`photo-validation.ts` lines 68-148), instrumented with
the number of `client.messages.create` invocations it performs (second
component).  `parse` models `JSON.parse`; `call` is how the single model
call settles. -/
def validatePhoto (parse : List Char → Option JsonValue)
    (call : PromiseOutcome (List ContentBlock)) : PhotoValidationResult × Nat :=
  match withTimeout call photoValidationTimeoutMs with
  | .error _ => (cannedPhotoError, 1)
  | .value content =>
    match findTextBlock content with
    | none => (cannedPhotoError, 1)
    | some t =>
      match jsMatchFirstBlock t with
      | none => (cannedPhotoError, 1)
      | some block =>
        match parse block with
        | none => (cannedPhotoError, 1)
        | some result =>
          match jsonLookup result "valid" with
          | some (.bool b) =>
            ({ valid := b
               errors := jsOr (jsonLookup result "errors") (.arr [])
               suggestions := jsOr (jsonLookup result "suggestions") (.arr [])
               confidence := jsOr (jsonLookup result "confidence") (.num 0) }, 1)
          | _ => (cannedPhotoError, 1)

/-- The conditions under which the `try` block of `validatePhoto` throws:
the raced call rejects (timeout or API error), the response has no text
block, the regex finds no brace block, `JSON.parse` throws, or the parsed
object's `valid` field is not a boolean. -/
def photoCallThrows (parse : List Char → Option JsonValue)
    (call : PromiseOutcome (List ContentBlock)) : Bool :=
  match withTimeout call photoValidationTimeoutMs with
  | .error _ => true
  | .value content =>
    match findTextBlock content with
    | none => true
    | some t =>
      match jsMatchFirstBlock t with
      | none => true
      | some block =>
        match parse block with
        | none => true
        | some result =>
          match jsonLookup result "valid" with
          | some (.bool _) => false
          | _ => true

/-! ## `passport-page-validation.ts`: `validatePassportPage` -/

/-- `PassportPageType` (`passport-page-validation.ts` line 10). -/
inductive PassportPageType where
  | COVER
  | INSIDE_PAGES
  | DATA_PAGE
  | OBSERVATIONS_PAGE
  | INVALID
deriving DecidableEq

/-- The string spellings checked by `validPageTypes.includes`. -/
def pageTypeOfString (s : String) : Option PassportPageType :=
  if s = "COVER" then some .COVER
  else if s = "INSIDE_PAGES" then some .INSIDE_PAGES
  else if s = "DATA_PAGE" then some .DATA_PAGE
  else if s = "OBSERVATIONS_PAGE" then some .OBSERVATIONS_PAGE
  else if s = "INVALID" then some .INVALID
  else none

/-- Return shape of `validatePassportPage` (normalised by the function). -/
structure PassportPageValidationResult where
  page_type : PassportPageType
  confidence : JsonValue
  details : JsonValue

/-- The canned response of `validatePassportPage`'s `catch` block
(`passport-page-validation.ts` lines 130-134). -/
def cannedPageError : PassportPageValidationResult :=
  { page_type := .INVALID
    confidence := .num 0
    details := .str "Unable to validate passport page. Please try again." }

/-- `validatePassportPage` (`passport-page-validation.ts` lines 57-136),
instrumented with the model-call count. -/
def validatePassportPage (parse : List Char → Option JsonValue)
    (call : PromiseOutcome (List ContentBlock)) :
    PassportPageValidationResult × Nat :=
  match withTimeout call passportPageTimeoutMs with
  | .error _ => (cannedPageError, 1)
  | .value content =>
    match findTextBlock content with
    | none => (cannedPageError, 1)
    | some t =>
      match jsMatchFirstBlock t with
      | none => (cannedPageError, 1)
      | some block =>
        match parse block with
        | none => (cannedPageError, 1)
        | some result =>
          let pt := match jsonLookup result "page_type" with
            | some (.str s) =>
              match pageTypeOfString s with
              | some p => p
              | none => PassportPageType.INVALID
            | _ => PassportPageType.INVALID
          ({ page_type := pt
             confidence := jsOr (jsonLookup result "confidence") (.num 0)
             details := jsOr (jsonLookup result "details")
               (.str "Unable to determine page type") }, 1)

/-! ## `passport-extraction.ts`: `extractPassport` -/

/-- Return shape of `extractPassport` (fields past `success` are unchecked
JSON values; `error` may be absent). -/
structure PassportExtractionResult where
  success : Bool
  data : JsonValue
  confidence : JsonValue
  mrz_verified : JsonValue
  error : Option JsonValue

/-- The early return for PDF uploads
(`passport-extraction.ts` lines 114-122). -/
def pdfExtractionResult : PassportExtractionResult :=
  { success := false
    data := .obj []
    confidence := .obj []
    mrz_verified := .bool false
    error := some (.str "Please upload an image file (JPG or PNG) of your passport, not a PDF.") }

/-- The canned response of `extractPassport`'s `catch` block
(`passport-extraction.ts` lines 182-188). -/
def cannedExtractionError : PassportExtractionResult :=
  { success := false
    data := .obj []
    confidence := .obj []
    mrz_verified := .bool false
    error := some (.str "Unable to extract passport data. Please ensure the image is clear and try again.") }

/-- The substring `isPdf` tests for (`passport-extraction.ts` line 101). -/
def pdfMarker : List Char := "data:application/pdf".toList

/-- `extractPassport` (`passport-extraction.ts` lines 96-190), instrumented
with the model-call count.  `imageBase64` is the input string; the PDF check
happens before the `try` block and returns without calling the model. -/
def extractPassport (parse : List Char → Option JsonValue)
    (imageBase64 : List Char) (call : PromiseOutcome (List ContentBlock)) :
    PassportExtractionResult × Nat :=
  if containsSub pdfMarker imageBase64 then (pdfExtractionResult, 0)
  else
    match withTimeout call passportExtractionTimeoutMs with
    | .error _ => (cannedExtractionError, 1)
    | .value content =>
      match findTextBlock content with
      | none => (cannedExtractionError, 1)
      | some t =>
        match jsMatchFirstBlock t with
        | none => (cannedExtractionError, 1)
        | some block =>
          match parse block with
          | none => (cannedExtractionError, 1)
          | some result =>
            match jsonLookup result "success" with
            | some (.bool b) =>
              ({ success := b
                 data := jsOr (jsonLookup result "data") (.obj [])
                 confidence := jsOr (jsonLookup result "confidence") (.obj [])
                 mrz_verified := jsOr (jsonLookup result "mrz_verified") (.bool false)
                 error := jsonLookup result "error" }, 1)
            | _ => (cannedExtractionError, 1)

/-! ## `utils.ts` (unnamed module `part_002`): validators and salary split -/

/-- The anchored regex test `AE` followed by exactly 21 ASCII digits
(`utils.ts` `isValidIBAN` line 135). -/
def ibanRegexTest : List Char → Bool
  | a :: b :: rest => a == 'A' && b == 'E' && rest.length == 21 && rest.all jsDigitChar
  | _ => false

/-- `isValidIBAN` (`utils.ts` lines 132-136): strip whitespace
(`replace` with the `\s` class, global), uppercase, test the anchored
regex. -/
def isValidIBAN (iban : List Char) : Bool :=
  ibanRegexTest ((iban.filter (fun c => !jsWhitespaceChar c)).map jsUpperChar)

/-- `isValidUAEMobile` (`utils.ts` lines 124-127): delete every non-digit
(`replace` with the `\D` class, global), then require length 10 and
leading `05`. -/
def isValidUAEMobile (number : List Char) : Bool :=
  let cleaned := number.filter jsDigitChar
  cleaned.length == 10 && listStartsWith ['0', '5'] cleaned

/-- JS `Math.round` on the (rational-modelled) numbers that arise here:
round half towards positive infinity. -/
def jsMathRound (x : ℚ) : ℤ := ⌊x + 1 / 2⌋

/-- The `Math.round(x * 100) / 100` idiom of `calculateSalaryBreakdown`. -/
def round2 (x : ℚ) : ℚ := (jsMathRound (x * 100) : ℚ) / 100

/-- The ratio table of `constants.ts` lines 428-434. -/
structure SalaryRatios where
  basic : ℚ
  accommodation : ℚ
  transport : ℚ
  food : ℚ
  other : ℚ

/-- `DEFAULT_SALARY_BREAKDOWN` (`constants.ts` lines 428-434). -/
def DEFAULT_SALARY_BREAKDOWN : SalaryRatios :=
  { basic := 6 / 10
    accommodation := 3 / 10
    transport := 1 / 10
    food := 0
    other := 0 }

/-- Return shape of `calculateSalaryBreakdown`. -/
structure SalaryBreakdownParts where
  basic : ℚ
  accommodation : ℚ
  transport : ℚ
  food : ℚ
  other : ℚ

/-- `calculateSalaryBreakdown` (`utils.ts` lines 48-72): round each
component to two decimals, then fold the rounding remainder back into
`basic` and round that once more. -/
def calculateSalaryBreakdown (total : ℚ) : SalaryBreakdownParts :=
  let basic := round2 (total * DEFAULT_SALARY_BREAKDOWN.basic)
  let accommodation := round2 (total * DEFAULT_SALARY_BREAKDOWN.accommodation)
  let transport := round2 (total * DEFAULT_SALARY_BREAKDOWN.transport)
  let food : ℚ := 0
  let other : ℚ := 0
  let sum := basic + accommodation + transport + food + other
  let adjustedBasic := basic + (total - sum)
  { basic := round2 adjustedBasic
    accommodation := accommodation
    transport := transport
    food := food
    other := other }

/-- Return shape of `validateSalaryBreakdown`. -/
structure SalaryValidation where
  valid : Bool
  difference : ℚ

/-- `validateSalaryBreakdown` (`utils.ts` lines 77-91). -/
def validateSalaryBreakdown (total basic accommodation transport food other : ℚ) :
    SalaryValidation :=
  let sum := basic + accommodation + transport + food + other
  let difference := |sum - total|
  { valid := decide (difference < 1 / 100), difference := difference }

/-! ## API route handlers

A handler either returns a response (status and JSON body) before reaching
the model-calling validator, or control reaches the validator call with a
string image — the only way the hosted model gets invoked. -/

/-- Outcome of a route handler's guard section. -/
inductive RouteOutcome where
  | response (status : Nat) (body : JsonValue)
  | validator (image : String)

/-- `const body = await req.json(); const { image } = body`: destructuring
`null` throws (landing in the handler's `catch`, modelled by `none`); any
other non-object yields `undefined` for `image`. -/
def routeBodyImage : JsonValue → Option (Option JsonValue)
  | .null => none
  | .obj fields => some (lookupField fields "image")
  | _ => some none

/-- Truthiness of a possibly-`undefined` value. -/
def jsTruthyOpt : Option JsonValue → Bool
  | some v => jsTruthy v
  | none => false

/-- 400 body of `/api/validate-photo` for a falsy `image`. -/
def photoNoImageBody : JsonValue :=
  .obj [("valid", .bool false), ("errors", .arr [.str "No image provided"]),
        ("suggestions", .arr [.str "Please upload an image"]), ("confidence", .num 0)]

/-- 400 body of `/api/validate-photo` for a non-string `image`. -/
def photoInvalidFormatBody : JsonValue :=
  .obj [("valid", .bool false), ("errors", .arr [.str "Invalid image format"]),
        ("suggestions", .arr [.str "Please provide a base64 encoded image"]),
        ("confidence", .num 0)]

/-- 503 body of `/api/validate-photo` when the API key is missing. -/
def photoUnavailableBody : JsonValue :=
  .obj [("valid", .bool false), ("errors", .arr [.str "Photo validation service unavailable"]),
        ("suggestions", .arr [.str "Please try again later"]), ("confidence", .num 0)]

/-- 500 body of `/api/validate-photo`'s `catch`. -/
def photoServerErrorBody : JsonValue :=
  .obj [("valid", .bool false), ("errors", .arr [.str "An error occurred during validation"]),
        ("suggestions", .arr [.str "Please try again"]), ("confidence", .num 0)]

/-- `POST /api/validate-photo` guard section (photo validation API route,
`validate-photo/route.ts`). -/
def validatePhotoPOST (keyConfigured : Bool) (body : JsonValue) : RouteOutcome :=
  match routeBodyImage body with
  | none => .response 500 photoServerErrorBody
  | some image =>
    if !jsTruthyOpt image then .response 400 photoNoImageBody
    else
      match image with
      | some (.str s) =>
        if keyConfigured then .validator s else .response 503 photoUnavailableBody
      | _ => .response 400 photoInvalidFormatBody

/-- 400 body of `/api/extract-passport` for a falsy `image`. -/
def extractNoImageBody : JsonValue :=
  .obj [("success", .bool false), ("data", .obj []), ("confidence", .obj []),
        ("mrz_verified", .bool false), ("error", .str "No image provided")]

/-- 400 body of `/api/extract-passport` for a non-string `image`. -/
def extractInvalidFormatBody : JsonValue :=
  .obj [("success", .bool false), ("data", .obj []), ("confidence", .obj []),
        ("mrz_verified", .bool false), ("error", .str "Invalid image format")]

/-- 503 body of `/api/extract-passport` when the API key is missing. -/
def extractUnavailableBody : JsonValue :=
  .obj [("success", .bool false), ("data", .obj []), ("confidence", .obj []),
        ("mrz_verified", .bool false), ("error", .str "Passport extraction service unavailable")]

/-- 500 body of `/api/extract-passport`'s `catch`. -/
def extractServerErrorBody : JsonValue :=
  .obj [("success", .bool false), ("data", .obj []), ("confidence", .obj []),
        ("mrz_verified", .bool false), ("error", .str "An error occurred during extraction")]

/-- `POST /api/extract-passport` guard section (`extract-passport/route.ts`). -/
def extractPassportPOST (keyConfigured : Bool) (body : JsonValue) : RouteOutcome :=
  match routeBodyImage body with
  | none => .response 500 extractServerErrorBody
  | some image =>
    if !jsTruthyOpt image then .response 400 extractNoImageBody
    else
      match image with
      | some (.str s) =>
        if keyConfigured then .validator s else .response 503 extractUnavailableBody
      | _ => .response 400 extractInvalidFormatBody

/-- 400 body of `/api/validate-passport-page` for a falsy `image`. -/
def pageNoImageBody : JsonValue := .obj [("error", .str "Image is required")]

/-- 500 body of `/api/validate-passport-page`'s `catch`. -/
def pageServerErrorBody : JsonValue :=
  .obj [("error", .str "Failed to validate passport page")]

/-- `POST /api/validate-passport-page` guard section
(`validate-passport-page/route.ts` lines 4-16).  The handler checks only
`!image`, so a truthy non-string reaches `validatePassportPage`, where
`imageBase64.replace` (or `getAnthropicClient` when the key is missing)
throws before any model call; the handler's `catch` turns that into a 500. -/
def validatePassportPagePOST (keyConfigured : Bool) (body : JsonValue) : RouteOutcome :=
  match routeBodyImage body with
  | none => .response 500 pageServerErrorBody
  | some image =>
    if !jsTruthyOpt image then .response 400 pageNoImageBody
    else
      match image with
      | some (.str s) =>
        if keyConfigured then .validator s else .response 500 pageServerErrorBody
      | _ => .response 500 pageServerErrorBody

/-! ## `/api/validate-passport-page` response shaping (route lines 16-40) -/

/-- The `typeLabels` record of the route (three entries; the other two page
types have no label, and a JS template interpolates them as `undefined`). -/
def passportPageTypeLabel : PassportPageType → Option String
  | .COVER => some "Passport Cover Spread (open passport showing front + back cover)"
  | .INSIDE_PAGES => some "Inside Pages Spread (open passport showing data page + opposite page)"
  | .INVALID => some "Valid Passport Page"
  | _ => none

/-- JS template interpolation of a possibly-`undefined` string. -/
def jsTemplateLookup (o : Option String) : String :=
  match o with
  | some s => s
  | none => "undefined"

/-- The JSON response of `/api/validate-passport-page`. -/
structure PassportPageRouteResponse where
  page_type : PassportPageType
  confidence : JsonValue
  details : JsonValue
  «matches» : Bool
  errorMessage : Option String

/-- Response shaping of `POST /api/validate-passport-page`
(`validate-passport-page/route.ts` lines 16-40): starting from the
validator's result, compare `page_type` with the supplied `expectedType`
and attach `matches` and `errorMessage`. -/
def passportPageRouteResponse (result : PassportPageValidationResult)
    (expectedType : Option PassportPageType) : PassportPageRouteResponse :=
  match expectedType with
  | some et =>
    if result.page_type ≠ et then
      let msg :=
        if result.page_type = PassportPageType.INVALID then
          "Please upload the passport spread open showing both pages. Single page photos are not accepted."
        else
          "This doesn\x27t appear to be a " ++ jsTemplateLookup (passportPageTypeLabel et) ++
            ". Please upload the correct page spread."
      { page_type := result.page_type, confidence := result.confidence,
        details := result.details, «matches» := false, errorMessage := some msg }
    else
      { page_type := result.page_type, confidence := result.confidence,
        details := result.details, «matches» := true, errorMessage := none }
  | none =>
    { page_type := result.page_type, confidence := result.confidence,
      details := result.details, «matches» := true, errorMessage := none }

/-! ## Onboarding row lifecycle (`supabase.ts` module and the onboarding
page / employee form components)

The onboarding page renders the employer form while `current_step` is
`employer`, the employee form (with its document-upload slots) while it is
`employee`, and no form once the submission is complete.  The supabase
module exposes four row-mutating calls on `staff_onboarding_submissions`:
`updateEmployerData`, `updateEmployeeData`, `updateSamePersonData` and
`updateDocumentReferences`; the employee form's upload handlers call
`updateDocumentReferences` after every successful upload or validation. -/

/-- The `current_step` column / page phase. -/
inductive OnboardStep where
  | employer
  | employee
  | complete
deriving DecidableEq

/-- One `update` on the submission row, named after the supabase-module
function that issues it. -/
inductive RowWrite where
  | employerPatch
  | employeePatch
  | samePersonPatch
  | documentsPatch
deriving DecidableEq

/-- UI events that can reach the supabase module.  The `ok` flag is whether
the external call chain succeeded (a failed update writes nothing). -/
inductive UiEvent where
  | employerSubmit (ok : Bool)
  | docUpload (ok : Bool)
  | employeeSubmit (ok : Bool)

/-- One UI event: the next page phase and the row writes it performs.
From `onboard/[id]/page.tsx` (`handleEmployerSubmit`,
`handleEmployeeSubmit`) and `EmployeeForm.tsx` (upload handlers).
In same-person mode the employer submit only stores data locally. -/
def stepEvent (samePerson : Bool) : OnboardStep → UiEvent → OnboardStep × List RowWrite
  | .employer, .employerSubmit ok =>
    if samePerson then (.employee, [])
    else if ok then (.employee, [.employerPatch]) else (.employer, [])
  | .employer, _ => (.employer, [])
  | .employee, .docUpload ok => (.employee, if ok then [.documentsPatch] else [])
  | .employee, .employeeSubmit ok =>
    if ok then
      (.complete, [if samePerson then .samePersonPatch else .employeePatch])
    else (.employee, [])
  | .employee, .employerSubmit _ => (.employee, [])
  | .complete, _ => (.complete, [])

/-- All row writes performed over a sequence of UI events. -/
def runTrace (samePerson : Bool) : OnboardStep → List UiEvent → List RowWrite
  | _, [] => []
  | st, e :: es =>
    let r := stepEvent samePerson st e
    r.2 ++ runTrace samePerson r.1 es

/-- The employee-complete patch (regular or same-person mode). -/
def isCompletionPatch : RowWrite → Bool
  | .employeePatch => true
  | .samePersonPatch => true
  | _ => false

/-- After a completion patch, no further write appears. -/
def noWriteAfterCompletion : List RowWrite → Bool
  | [] => true
  | w :: ws => if isCompletionPatch w then ws.isEmpty else noWriteAfterCompletion ws

/-! ## Claim theorems -/

/-- A model reply holding two separate brace-delimited objects. -/
def twoObjectReply : List Char := [lbrace, 'a', rbrace, ' ', lbrace, 'b', rbrace]

/-- C1 counterexample: on a reply with two separate brace-delimited
objects, the substring the validators extract
(`jsMatchFirstBlock`, the source's greedy `match`) is the whole span from
the first left brace to the last right brace — not the first block ending
at the matching right brace (`specFirstBlock`, the claim's description). -/
theorem c1_two_objects_counterexample :
    specFirstBlock twoObjectReply = some [lbrace, 'a', rbrace] ∧
    jsMatchFirstBlock twoObjectReply = some twoObjectReply ∧
    jsMatchFirstBlock twoObjectReply ≠ specFirstBlock twoObjectReply := by
  refine ⟨by decide, by decide, by decide⟩

/-- C1 (amended): the substring that `validatePhoto`,
`validatePassportPage` and `extractPassport` extract and pass to
`JSON.parse` is the span starting at the first left brace of the reply and
ending at the reply's *last* right brace (and extraction succeeds exactly
when some left brace is followed by some right brace); when the reply
contains two separate brace-delimited objects, the span passed to
`JSON.parse` covers both. -/
theorem c1_extraction_first_open_to_last_close (s r : List Char) :
    jsMatchFirstBlock s = some r ↔
      ∃ pre mid suf, s = pre ++ (lbrace :: (mid ++ rbrace :: suf)) ∧
        lbrace ∉ pre ∧ rbrace ∉ suf ∧ r = lbrace :: (mid ++ [rbrace]) :=
  jsMatchFirstBlock_characterisation s r

/-- C1 witness: applying the characterisation at the two-object reply —
the extracted span is the whole reply, first left brace to last right
brace. -/
theorem c1_extraction_witness :
    jsMatchFirstBlock twoObjectReply = some twoObjectReply :=
  (c1_extraction_first_open_to_last_close twoObjectReply twoObjectReply).mpr
    ⟨[], ['a', rbrace, ' ', lbrace, 'b'], [], by decide, by decide, by decide,
      by decide⟩

/-- C3: whenever the raced model call or the response handling inside
`validatePhoto`'s `try` block throws — rejection (timeout or API error),
absent text block, no regex match, `JSON.parse` failure, or a missing /
non-boolean `valid` field — `validatePhoto` returns the canned error
result, and the model was called exactly once (no retry). -/
theorem c3_photo_error_fallback (parse : List Char → Option JsonValue)
    (call : PromiseOutcome (List ContentBlock))
    (h : photoCallThrows parse call = true) :
    validatePhoto parse call =
      ({ valid := false
         errors := .arr [.str "Unable to validate photo. Please try again."]
         suggestions := .arr [.str "Ensure the image is clear and try uploading again."]
         confidence := .num 0 }, 1) := by
  cases hw : withTimeout call photoValidationTimeoutMs with
  | error m => simp [validatePhoto, hw, cannedPhotoError]
  | value content =>
    cases hf : findTextBlock content with
    | none => simp [validatePhoto, hw, hf, cannedPhotoError]
    | some t =>
      cases hm : jsMatchFirstBlock t with
      | none => simp [validatePhoto, hw, hf, hm, cannedPhotoError]
      | some block =>
        cases hp : parse block with
        | none => simp [validatePhoto, hw, hf, hm, hp, cannedPhotoError]
        | some result =>
          cases hv : jsonLookup result "valid" with
          | none => simp [validatePhoto, hw, hf, hm, hp, hv, cannedPhotoError]
          | some v =>
            cases v with
            | bool b =>
              exfalso
              simp [photoCallThrows, hw, hf, hm, hp, hv] at h
            | null => simp [validatePhoto, hw, hf, hm, hp, hv, cannedPhotoError]
            | num q => simp [validatePhoto, hw, hf, hm, hp, hv, cannedPhotoError]
            | str s' => simp [validatePhoto, hw, hf, hm, hp, hv, cannedPhotoError]
            | arr xs => simp [validatePhoto, hw, hf, hm, hp, hv, cannedPhotoError]
            | obj fs => simp [validatePhoto, hw, hf, hm, hp, hv, cannedPhotoError]

/-- C3 witness: a rejected model call yields the canned error result and a
single model call. -/
theorem c3_photo_error_fallback_witness :
    validatePhoto (fun _ => none) (PromiseOutcome.rejects 0 "API error") =
      ({ valid := false
         errors := .arr [.str "Unable to validate photo. Please try again."]
         suggestions := .arr [.str "Ensure the image is clear and try uploading again."]
         confidence := .num 0 }, 1) :=
  c3_photo_error_fallback (fun _ => none) (PromiseOutcome.rejects 0 "API error") rfl

theorem withTimeout_timer_first {α : Type} (call : PromiseOutcome α) (ms : Nat)
    (h : ms < settleTime call) :
    withTimeout call ms = .error (timeoutMessage ms) := by
  cases call with
  | resolves t v =>
    have : ¬ t ≤ ms := by simpa [settleTime] using Nat.not_le.mpr h
    simp [withTimeout, this]
  | rejects t m =>
    have : ¬ t ≤ ms := by simpa [settleTime] using Nat.not_le.mpr h
    simp [withTimeout, this]

/-- C5: every hosted-model call of the three validators is raced via
`withTimeout` against a single flat timer — 30000 ms for both validations
and 45000 ms for extraction, each between 30 and 60 seconds; when the timer
fires before the call settles, the race rejects with
`Request timeout after <timeoutMs>ms`, each validator returns its canned
error result, and the model was called exactly once (no retry). -/
theorem c5_flat_timeouts :
    photoValidationTimeoutMs = 30000 ∧ passportPageTimeoutMs = 30000 ∧
    passportExtractionTimeoutMs = 45000 ∧
    (30000 ≤ photoValidationTimeoutMs ∧ photoValidationTimeoutMs ≤ 60000) ∧
    (30000 ≤ passportPageTimeoutMs ∧ passportPageTimeoutMs ≤ 60000) ∧
    (30000 ≤ passportExtractionTimeoutMs ∧ passportExtractionTimeoutMs ≤ 60000) ∧
    timeoutMessage 30000 = "Request timeout after 30000ms" ∧
    timeoutMessage 45000 = "Request timeout after 45000ms" ∧
    (∀ (call : PromiseOutcome (List ContentBlock)) (ms : Nat),
      ms < settleTime call → withTimeout call ms = .error (timeoutMessage ms)) ∧
    (∀ parse call, photoValidationTimeoutMs < settleTime call →
      validatePhoto parse call = (cannedPhotoError, 1)) ∧
    (∀ parse call, passportPageTimeoutMs < settleTime call →
      validatePassportPage parse call = (cannedPageError, 1)) ∧
    (∀ parse image call, containsSub pdfMarker image = false →
      passportExtractionTimeoutMs < settleTime call →
      extractPassport parse image call = (cannedExtractionError, 1)) := by
  refine ⟨rfl, rfl, rfl, ⟨by decide, by decide⟩, ⟨by decide, by decide⟩,
    ⟨by decide, by decide⟩, rfl, rfl,
    fun call ms h => withTimeout_timer_first call ms h, ?_, ?_, ?_⟩
  · intro parse call h
    rw [show validatePhoto parse call =
      (match withTimeout call photoValidationTimeoutMs with
       | .error _ => (cannedPhotoError, 1)
       | .value content => _) from rfl]
    rw [withTimeout_timer_first call photoValidationTimeoutMs h]
  · intro parse call h
    rw [show validatePassportPage parse call =
      (match withTimeout call passportPageTimeoutMs with
       | .error _ => (cannedPageError, 1)
       | .value content => _) from rfl]
    rw [withTimeout_timer_first call passportPageTimeoutMs h]
  · intro parse image call hpdf h
    rw [show extractPassport parse image call =
      (if containsSub pdfMarker image then (pdfExtractionResult, 0)
       else match withTimeout call passportExtractionTimeoutMs with
       | .error _ => (cannedExtractionError, 1)
       | .value content => _) from rfl]
    rw [hpdf, withTimeout_timer_first call passportExtractionTimeoutMs h]
    simp

/-- C5 witness: a call that settles after the 30000 ms photo timer is
flattened to the canned timeout rejection and a single model call. -/
theorem c5_flat_timeouts_witness :
    withTimeout (PromiseOutcome.resolves 30001 ([] : List ContentBlock))
        photoValidationTimeoutMs = .error (timeoutMessage 30000) ∧
    validatePhoto (fun _ => none) (PromiseOutcome.resolves 30001 []) =
      (cannedPhotoError, 1) := by
  obtain ⟨_, _, _, _, _, _, _, _, hgen, hphoto, _, _⟩ := c5_flat_timeouts
  exact ⟨hgen (PromiseOutcome.resolves 30001 []) 30000 (by decide),
    hphoto (fun _ => none) (PromiseOutcome.resolves 30001 []) (by decide)⟩

/-- C9: any input string containing `data:application/pdf` makes
`extractPassport` return the PDF-specific error result — `success` false,
empty `data` and `confidence`, `mrz_verified` false — without ever calling
the hosted model (call count 0). -/
theorem c9_pdf_rejected_without_model_call (parse : List Char → Option JsonValue)
    (image : List Char) (call : PromiseOutcome (List ContentBlock))
    (h : containsSub pdfMarker image = true) :
    extractPassport parse image call =
      ({ success := false
         data := .obj []
         confidence := .obj []
         mrz_verified := .bool false
         error := some (.str "Please upload an image file (JPG or PNG) of your passport, not a PDF.") }, 0) := by
  simp [extractPassport, h, pdfExtractionResult]

/-- C9 witness: an input that is exactly the PDF data-URL marker is
rejected with the PDF error and zero model calls. -/
theorem c9_pdf_rejected_witness :
    extractPassport (fun _ => none) pdfMarker (PromiseOutcome.resolves 0 []) =
      ({ success := false
         data := .obj []
         confidence := .obj []
         mrz_verified := .bool false
         error := some (.str "Please upload an image file (JPG or PNG) of your passport, not a PDF.") }, 0) :=
  c9_pdf_rejected_without_model_call (fun _ => none) pdfMarker
    (PromiseOutcome.resolves 0 []) (by decide)

theorem ibanRegexTest_iff (cleaned : List Char) :
    ibanRegexTest cleaned = true ↔
      ∃ ds, cleaned = 'A' :: 'E' :: ds ∧ ds.length = 21 ∧
        ∀ c ∈ ds, jsDigitChar c = true := by
  cases cleaned with
  | nil => simp [ibanRegexTest]
  | cons a t =>
    cases t with
    | nil => simp [ibanRegexTest]
    | cons b rest =>
      simp only [ibanRegexTest, Bool.and_eq_true, beq_iff_eq, List.all_eq_true]
      constructor
      · rintro ⟨⟨⟨ha, hb⟩, hlen⟩, hall⟩
        exact ⟨rest, by simp [ha, hb], by simpa using hlen, hall⟩
      · rintro ⟨ds, heq, hlen, hall⟩
        injection heq with ha heq
        injection heq with hb heq
        subst ha; subst hb; subst heq
        exact ⟨⟨⟨rfl, rfl⟩, by simpa using hlen⟩, hall⟩

/-- C6: `isValidIBAN s` is true exactly when `s`, with all whitespace
removed and converted to upper case, is the two letters `AE` followed by
exactly 21 ASCII digits (23 characters in total). -/
theorem c6_isValidIBAN_shape (s : List Char) :
    isValidIBAN s = true ↔
      ∃ ds, (s.filter (fun c => !jsWhitespaceChar c)).map jsUpperChar =
          'A' :: 'E' :: ds ∧ ds.length = 21 ∧
        (∀ c ∈ ds, jsDigitChar c = true) ∧
        ((s.filter (fun c => !jsWhitespaceChar c)).map jsUpperChar).length = 23 := by
  rw [isValidIBAN, ibanRegexTest_iff]
  constructor
  · rintro ⟨ds, heq, hlen, hall⟩
    exact ⟨ds, heq, hlen, hall, by simp [heq, hlen]⟩
  · rintro ⟨ds, heq, hlen, hall, _⟩
    exact ⟨ds, heq, hlen, hall⟩

/-- C6 witness: a well-formed UAE IBAN with spaces and lowercase letters
passes, and its cleaned form has the stated shape. -/
theorem c6_isValidIBAN_witness :
    isValidIBAN "ae07 0331 2345 6789 0123 456".toList = true :=
  (c6_isValidIBAN_shape "ae07 0331 2345 6789 0123 456".toList).mpr
    ⟨"070331234567890123456".toList, by decide, by decide, by decide, by decide⟩

theorem listStartsWith_pair_iff (a b : Char) (l : List Char) :
    listStartsWith [a, b] l = true ↔ ∃ rest, l = a :: b :: rest := by
  cases l with
  | nil => simp [listStartsWith]
  | cons x t =>
    cases t with
    | nil => simp [listStartsWith]
    | cons y rest =>
      simp only [listStartsWith, Bool.and_eq_true, decide_eq_true_eq]
      constructor
      · rintro ⟨ha, hb, _⟩
        exact ⟨rest, by simp [ha, hb]⟩
      · rintro ⟨rest', heq⟩
        injection heq with hx heq
        injection heq with hy _
        exact ⟨hx.symm, hy.symm, trivial⟩

/-- C7: `isValidUAEMobile n` is true exactly when the string obtained from
`n` by deleting every non-digit character has length exactly 10 and starts
with `05`. -/
theorem c7_isValidUAEMobile_shape (n : List Char) :
    isValidUAEMobile n = true ↔
      (n.filter jsDigitChar).length = 10 ∧
      ∃ rest, n.filter jsDigitChar = '0' :: '5' :: rest := by
  rw [isValidUAEMobile]
  simp only [Bool.and_eq_true, beq_iff_eq, listStartsWith_pair_iff]

/-- C7 witness: a formatted UAE mobile number with punctuation passes. -/
theorem c7_isValidUAEMobile_witness :
    isValidUAEMobile "+05 0-123 4567".toList = true :=
  (c7_isValidUAEMobile_shape "+05 0-123 4567".toList).mpr
    ⟨by decide, "01234567".toList, by decide⟩

theorem round2_close (x : ℚ) : |round2 x - x| ≤ 1 / 200 := by
  have h1 : (⌊x * 100 + 1 / 2⌋ : ℚ) ≤ x * 100 + 1 / 2 := Int.floor_le _
  have h2 : x * 100 + 1 / 2 < (⌊x * 100 + 1 / 2⌋ : ℚ) + 1 := Int.lt_floor_add_one _
  rw [round2, jsMathRound, abs_le]
  constructor <;> linarith

/-- C10: for every non-negative total, `calculateSalaryBreakdown` returns
`food = 0` and `other = 0`, and its five components pass
`validateSalaryBreakdown` against the total: the absolute difference
between their sum and the total is below 0.01. -/
theorem c10_salary_breakdown_valid (total : ℚ) (_h : 0 ≤ total) :
    (calculateSalaryBreakdown total).food = 0 ∧
    (calculateSalaryBreakdown total).other = 0 ∧
    (validateSalaryBreakdown total
      (calculateSalaryBreakdown total).basic
      (calculateSalaryBreakdown total).accommodation
      (calculateSalaryBreakdown total).transport
      (calculateSalaryBreakdown total).food
      (calculateSalaryBreakdown total).other).valid = true := by
  refine ⟨rfl, rfl, ?_⟩
  simp only [calculateSalaryBreakdown, validateSalaryBreakdown, decide_eq_true_eq]
  set acc := round2 (total * DEFAULT_SALARY_BREAKDOWN.accommodation) with hacc
  set trans := round2 (total * DEFAULT_SALARY_BREAKDOWN.transport) with htrans
  set basic0 := round2 (total * DEFAULT_SALARY_BREAKDOWN.basic) with hbasic0
  have e : basic0 + (total - (basic0 + acc + trans + 0 + 0)) = total - acc - trans := by
    ring
  rw [e]
  have key := round2_close (total - acc - trans)
  have e2 : round2 (total - acc - trans) + acc + trans + 0 + 0 - total
      = round2 (total - acc - trans) - (total - acc - trans) := by ring
  rw [e2]
  calc |round2 (total - acc - trans) - (total - acc - trans)| ≤ 1 / 200 := key
    _ < 1 / 100 := by norm_num

/-- C10 witness: the split of a concrete total of 1000 validates. -/
theorem c10_salary_breakdown_witness :
    (0 : ℚ) ≤ 1000 ∧
    (validateSalaryBreakdown 1000
      (calculateSalaryBreakdown 1000).basic
      (calculateSalaryBreakdown 1000).accommodation
      (calculateSalaryBreakdown 1000).transport
      (calculateSalaryBreakdown 1000).food
      (calculateSalaryBreakdown 1000).other).valid = true :=
  ⟨by norm_num, (c10_salary_breakdown_valid 1000 (by norm_num)).2.2⟩

/-- The HTTP status of a route outcome (`none` when control reaches the
validator instead of returning directly). -/
def routeStatus : RouteOutcome → Option Nat
  | .response st _ => some st
  | .validator _ => none

theorem validatePhotoPOST_validator_inv (key : Bool) (body : JsonValue) (s : String)
    (h : validatePhotoPOST key body = .validator s) :
    routeBodyImage body = some (some (.str s)) := by
  unfold validatePhotoPOST at h
  split at h
  · exact absurd h (by simp)
  · split at h
    · exact absurd h (by simp)
    · split at h
      · split at h
        · simp_all
        · exact absurd h (by simp)
      · exact absurd h (by simp)

theorem extractPassportPOST_validator_inv (key : Bool) (body : JsonValue) (s : String)
    (h : extractPassportPOST key body = .validator s) :
    routeBodyImage body = some (some (.str s)) := by
  unfold extractPassportPOST at h
  split at h
  · exact absurd h (by simp)
  · split at h
    · exact absurd h (by simp)
    · split at h
      · split at h
        · simp_all
        · exact absurd h (by simp)
      · exact absurd h (by simp)

theorem validatePassportPagePOST_validator_inv (key : Bool) (body : JsonValue) (s : String)
    (h : validatePassportPagePOST key body = .validator s) :
    routeBodyImage body = some (some (.str s)) := by
  unfold validatePassportPagePOST at h
  split at h
  · exact absurd h (by simp)
  · split at h
    · exact absurd h (by simp)
    · split at h
      · split at h
        · simp_all
        · exact absurd h (by simp)
      · exact absurd h (by simp)

/-- C4 counterexample: a POST body whose `image` is the number 42 (truthy
but not a string) makes `/api/validate-passport-page` answer 500
(the handler's only guard is `!image`, so the non-string reaches
`validatePassportPage`, throws there, and lands in the route's `catch`) —
not the claimed 400. -/
theorem c4_page_route_non_string_counterexample :
    routeStatus (validatePassportPagePOST true
      (JsonValue.obj [("image", JsonValue.num 42)])) = some 500 ∧
    routeStatus (validatePassportPagePOST true
      (JsonValue.obj [("image", JsonValue.num 42)])) ≠ some 400 := by
  exact ⟨rfl, by decide⟩

/-- C4 (amended): for every object request body, if the `image` field is
missing or falsy, all three handlers return 400 with their error-shaped
JSON bodies; if `image` is truthy but not a string, `/api/validate-photo`
and `/api/extract-passport` return 400 while `/api/validate-passport-page`
returns 500 (from the `TypeError` its unguarded call produces); and
whenever `image` is not a string, none of the three handlers reaches the
hosted-model-calling validator. -/
theorem c4_image_guards (key : Bool) (fields : List (String × JsonValue)) :
    (jsTruthyOpt (lookupField fields "image") = false →
      validatePhotoPOST key (.obj fields) = .response 400 photoNoImageBody ∧
      extractPassportPOST key (.obj fields) = .response 400 extractNoImageBody ∧
      validatePassportPagePOST key (.obj fields) = .response 400 pageNoImageBody) ∧
    (jsTruthyOpt (lookupField fields "image") = true →
      (∀ s, lookupField fields "image" ≠ some (.str s)) →
      validatePhotoPOST key (.obj fields) = .response 400 photoInvalidFormatBody ∧
      extractPassportPOST key (.obj fields) = .response 400 extractInvalidFormatBody ∧
      validatePassportPagePOST key (.obj fields) = .response 500 pageServerErrorBody) ∧
    ((∀ s, lookupField fields "image" ≠ some (.str s)) →
      (∀ s, validatePhotoPOST key (.obj fields) ≠ .validator s) ∧
      (∀ s, extractPassportPOST key (.obj fields) ≠ .validator s) ∧
      (∀ s, validatePassportPagePOST key (.obj fields) ≠ .validator s)) := by
  refine ⟨?_, ?_, ?_⟩
  · intro hf
    exact ⟨by simp [validatePhotoPOST, routeBodyImage, hf],
           by simp [extractPassportPOST, routeBodyImage, hf],
           by simp [validatePassportPagePOST, routeBodyImage, hf]⟩
  · intro h1 h2
    rcases him : lookupField fields "image" with _ | v
    · rw [him] at h1
      simp [jsTruthyOpt] at h1
    · rw [him] at h1
      cases v with
      | str s => exact absurd him (h2 s)
      | null =>
        exact ⟨by simp [validatePhotoPOST, routeBodyImage, him, h1],
               by simp [extractPassportPOST, routeBodyImage, him, h1],
               by simp [validatePassportPagePOST, routeBodyImage, him, h1]⟩
      | bool b =>
        exact ⟨by simp [validatePhotoPOST, routeBodyImage, him, h1],
               by simp [extractPassportPOST, routeBodyImage, him, h1],
               by simp [validatePassportPagePOST, routeBodyImage, him, h1]⟩
      | num q =>
        exact ⟨by simp [validatePhotoPOST, routeBodyImage, him, h1],
               by simp [extractPassportPOST, routeBodyImage, him, h1],
               by simp [validatePassportPagePOST, routeBodyImage, him, h1]⟩
      | arr xs =>
        exact ⟨by simp [validatePhotoPOST, routeBodyImage, him, h1],
               by simp [extractPassportPOST, routeBodyImage, him, h1],
               by simp [validatePassportPagePOST, routeBodyImage, him, h1]⟩
      | obj fs =>
        exact ⟨by simp [validatePhotoPOST, routeBodyImage, him, h1],
               by simp [extractPassportPOST, routeBodyImage, him, h1],
               by simp [validatePassportPagePOST, routeBodyImage, him, h1]⟩
  · intro h2
    refine ⟨fun s h => ?_, fun s h => ?_, fun s h => ?_⟩
    · have := validatePhotoPOST_validator_inv key (.obj fields) s h
      simp only [routeBodyImage, Option.some.injEq] at this
      exact h2 s this
    · have := extractPassportPOST_validator_inv key (.obj fields) s h
      simp only [routeBodyImage, Option.some.injEq] at this
      exact h2 s this
    · have := validatePassportPagePOST_validator_inv key (.obj fields) s h
      simp only [routeBodyImage, Option.some.injEq] at this
      exact h2 s this

/-- C4 witness: for a body with no `image` field, all three handlers
return 400 without reaching the validator. -/
theorem c4_image_guards_witness :
    validatePhotoPOST true (.obj []) = .response 400 photoNoImageBody ∧
    extractPassportPOST true (.obj []) = .response 400 extractNoImageBody ∧
    validatePassportPagePOST true (.obj []) = .response 400 pageNoImageBody :=
  (c4_image_guards true []).1 rfl

/-- C8: whenever `/api/validate-passport-page` is given an `expectedType`,
the response satisfies: `matches` is true exactly when the validator's
`page_type` equals `expectedType`; `errorMessage` is `null` exactly when
`matches` is true; and when `matches` is false, `errorMessage` is a
non-empty string. -/
theorem c8_expected_type_response (result : PassportPageValidationResult)
    (et : PassportPageType) :
    ((passportPageRouteResponse result (some et)).«matches» = true ↔
      result.page_type = et) ∧
    ((passportPageRouteResponse result (some et)).errorMessage = none ↔
      (passportPageRouteResponse result (some et)).«matches» = true) ∧
    ((passportPageRouteResponse result (some et)).«matches» = false →
      ∃ m, (passportPageRouteResponse result (some et)).errorMessage = some m ∧
        m ≠ "") := by
  by_cases h : result.page_type = et
  · simp [passportPageRouteResponse, h]
  · refine ⟨by simp [passportPageRouteResponse, h],
      by simp [passportPageRouteResponse, h], fun _ => ?_⟩
    by_cases hinv : result.page_type = PassportPageType.INVALID
    · rw [hinv] at h
      refine ⟨"Please upload the passport spread open showing both pages. Single page photos are not accepted.",
        by simp [passportPageRouteResponse, h, hinv], by decide⟩
    · refine ⟨"This doesn\x27t appear to be a " ++
        jsTemplateLookup (passportPageTypeLabel et) ++
        ". Please upload the correct page spread.",
        by simp [passportPageRouteResponse, h, hinv], ?_⟩
      cases et <;> decide

/-- C8 witness: a COVER result against expected INSIDE_PAGES does not
match and carries a non-empty error message. -/
theorem c8_expected_type_response_witness :
    (passportPageRouteResponse
      ⟨PassportPageType.COVER, .num 0, .str "d"⟩
      (some PassportPageType.INSIDE_PAGES)).«matches» = false ∧
    ∃ m, (passportPageRouteResponse
      ⟨PassportPageType.COVER, .num 0, .str "d"⟩
      (some PassportPageType.INSIDE_PAGES)).errorMessage = some m ∧ m ≠ "" := by
  refine ⟨rfl, (c8_expected_type_response
    ⟨PassportPageType.COVER, .num 0, .str "d"⟩
    PassportPageType.INSIDE_PAGES).2.2 rfl⟩

/-- Number of occurrences of a given row write in a write list. -/
def countWrite (w : RowWrite) : List RowWrite → Nat
  | [] => 0
  | x :: xs => (if x = w then 1 else 0) + countWrite w xs

theorem runTrace_complete (sp : Bool) (es : List UiEvent) :
    runTrace sp .complete es = [] := by
  induction es with
  | nil => rfl
  | cons e es ih => cases e <;> simp [runTrace, stepEvent, ih]

theorem runTrace_employee_good (sp : Bool) (es : List UiEvent) :
    countWrite .employerPatch (runTrace sp .employee es) = 0 ∧
    countWrite .employeePatch (runTrace sp .employee es) +
      countWrite .samePersonPatch (runTrace sp .employee es) ≤ 1 ∧
    noWriteAfterCompletion (runTrace sp .employee es) = true := by
  induction es with
  | nil => exact ⟨rfl, by simp [countWrite], rfl⟩
  | cons e es ih =>
    cases e with
    | employerSubmit ok =>
      simpa [runTrace, stepEvent] using ih
    | docUpload ok =>
      cases ok with
      | true =>
        obtain ⟨ih1, ih2, ih3⟩ := ih
        refine ⟨?_, ?_, ?_⟩
        · simpa [runTrace, stepEvent, countWrite] using ih1
        · simpa [runTrace, stepEvent, countWrite] using ih2
        · simpa [runTrace, stepEvent, noWriteAfterCompletion, isCompletionPatch] using ih3
      | false => simpa [runTrace, stepEvent] using ih
    | employeeSubmit ok =>
      cases ok with
      | true =>
        cases sp <;>
          simp [runTrace, stepEvent, runTrace_complete, countWrite,
            noWriteAfterCompletion, isCompletionPatch]
      | false => simpa [runTrace, stepEvent] using ih

/-- C2 counterexample: a run in which the employer completes their section,
the employee then uploads one document and completes their section,
performs three patches of the submission row
(`updateEmployerData`, `updateDocumentReferences`, `updateEmployeeData`) —
more than the claimed at-most-two. -/
theorem c2_three_patches_counterexample :
    runTrace false .employer
      [UiEvent.employerSubmit true, UiEvent.docUpload true, UiEvent.employeeSubmit true] =
      [RowWrite.employerPatch, RowWrite.documentsPatch, RowWrite.employeePatch] ∧
    (runTrace false .employer
      [UiEvent.employerSubmit true, UiEvent.docUpload true,
        UiEvent.employeeSubmit true]).length = 3 := by
  exact ⟨rfl, rfl⟩

/-- C2 (amended): in every run of the onboarding UI — from any initial
phase and in either mode — the row is patched at most once by
`updateEmployerData`, at most once in total by `updateEmployeeData` /
`updateSamePersonData` (the employee-complete patch), plus one
`updateDocumentReferences` patch per successful document upload or
validation during the employee step; after the employee-complete patch no
further write to the row occurs. -/
theorem c2_row_write_lifecycle (sp : Bool) (st0 : OnboardStep) (es : List UiEvent) :
    countWrite .employerPatch (runTrace sp st0 es) ≤ 1 ∧
    countWrite .employeePatch (runTrace sp st0 es) +
      countWrite .samePersonPatch (runTrace sp st0 es) ≤ 1 ∧
    noWriteAfterCompletion (runTrace sp st0 es) = true := by
  cases st0 with
  | complete => simp [runTrace_complete, countWrite, noWriteAfterCompletion]
  | employee =>
    obtain ⟨h1, h2, h3⟩ := runTrace_employee_good sp es
    exact ⟨by simp [h1], h2, h3⟩
  | employer =>
    induction es with
    | nil => exact ⟨by simp [countWrite], by simp [countWrite], rfl⟩
    | cons e es ih =>
      cases e with
      | employerSubmit ok =>
        by_cases hsp : sp = true
        · subst hsp
          obtain ⟨h1, h2, h3⟩ := runTrace_employee_good true es
          exact ⟨by simp [runTrace, stepEvent, h1], by simpa [runTrace, stepEvent] using h2,
            by simpa [runTrace, stepEvent] using h3⟩
        · have hsp' : sp = false := by simpa using hsp
          subst hsp'
          cases ok with
          | true =>
            obtain ⟨h1, h2, h3⟩ := runTrace_employee_good false es
            refine ⟨?_, ?_, ?_⟩
            · simp [runTrace, stepEvent, countWrite, h1]
            · simpa [runTrace, stepEvent, countWrite] using h2
            · simpa [runTrace, stepEvent, noWriteAfterCompletion, isCompletionPatch]
                using h3
          | false => simpa [runTrace, stepEvent] using ih
      | docUpload ok => simpa [runTrace, stepEvent] using ih
      | employeeSubmit ok => simpa [runTrace, stepEvent] using ih

/-- C2 witness: the three-patch run above still satisfies the amended
bounds — one employer patch, one completion patch, nothing after it. -/
theorem c2_row_write_lifecycle_witness :
    countWrite .employerPatch (runTrace false .employer
      [UiEvent.employerSubmit true, UiEvent.docUpload true,
        UiEvent.employeeSubmit true]) ≤ 1 ∧
    noWriteAfterCompletion (runTrace false .employer
      [UiEvent.employerSubmit true, UiEvent.docUpload true,
        UiEvent.employeeSubmit true]) = true := by
  obtain ⟨h1, _, h3⟩ := c2_row_write_lifecycle false .employer
    [UiEvent.employerSubmit true, UiEvent.docUpload true, UiEvent.employeeSubmit true]
  exact ⟨h1, h3⟩

end TmeStaff
